import Mathlib

/-!
Verification of the user-service core (src/services/user-service/src/app.py):
credential hashing, principal registry with uniqueness on insert, JWT-style
token issue/verify, and the register/login/resolve/list endpoints.

Timestamps and durations are modelled in minutes as naturals.  The bcrypt
collaborator is modelled symbolically: a hash records the salt and the
hashed secret, and `checkpw` succeeds exactly when the secret matches
(faithful to bcrypt's contract for non-degenerate inputs).  The PyJWT
collaborator is modelled symbolically as a signed record: a token carries
its payload and its signing key, decoding checks the key first
(`InvalidSignatureError`) and then the expiry claim (`ExpiredSignatureError`,
raised when `exp < now`, as PyJWT does with zero leeway).
-/

/-- Model of a bcrypt hash: the salt together with the hashed secret. -/
structure BcryptHash where
  salt : Nat
  secret : String
deriving DecidableEq, Repr

/-- Model of `bcrypt.hashpw(password, gensalt())`; the fresh random salt is
passed explicitly. -/
def bcrypt_hashpw (password : String) (salt : Nat) : BcryptHash :=
  { salt := salt, secret := password }

/-- Model of `bcrypt.checkpw`: true exactly when the password matches the
one that was hashed. -/
def bcrypt_checkpw (password : String) (hashed : BcryptHash) : Bool :=
  password == hashed.secret

/-- `hash_password` from app.py lines 79-80. -/
def hash_password (password : String) (salt : Nat) : BcryptHash :=
  bcrypt_hashpw password salt

/-- `verify_password` from app.py lines 82-83. -/
def verify_password (password : String) (hashed_password : BcryptHash) : Bool :=
  bcrypt_checkpw password hashed_password

/-- A stored user record, as in the `users_db` dictionaries (app.py 66-76). -/
structure User where
  id : Nat
  email : String
  username : String
  full_name : String
  hashed_password : BcryptHash
  created_at : Nat
  is_active : Bool
deriving DecidableEq, Repr

/-- The `UserCreate` request model (app.py 43-47). -/
structure UserCreate where
  email : String
  username : String
  password : String
  full_name : String
deriving DecidableEq, Repr

/-- The `UserResponse` model (app.py 49-55): all user fields except
`hashed_password`, which the model deliberately lacks. -/
structure UserResponse where
  id : Nat
  email : String
  username : String
  full_name : String
  created_at : Nat
  is_active : Bool
deriving DecidableEq, Repr

/-- The `UserLogin` request model (app.py 57-59). -/
structure UserLogin where
  username : String
  password : String
deriving DecidableEq, Repr

/-- The projection `{k: v for k, v in user.items() if k != "hashed_password"}`
used by register, /users/me and /users (app.py 145, 184, 189). -/
def toUserResponse (u : User) : UserResponse :=
  { id := u.id, email := u.email, username := u.username,
    full_name := u.full_name, created_at := u.created_at,
    is_active := u.is_active }

/-- The seeded admin record of `users_db` (app.py 66-76); the bcrypt salt and
the startup timestamp are parameters. -/
def adminUser (salt t0 : Nat) : User :=
  { id := 1, email := "admin@example.com", username := "admin",
    full_name := "System Administrator",
    hashed_password := bcrypt_hashpw "admin123" salt,
    created_at := t0, is_active := true }

/-- Initial `users_db` (app.py 66-76): a one-element list holding the admin. -/
def users_db_init (salt t0 : Nat) : List User :=
  [adminUser salt t0]

/-- The duplicate check of `register_user` (app.py 124-125). -/
def collides (user : UserCreate) (existing_user : User) : Bool :=
  existing_user.email == user.email || existing_user.username == user.username

/-- `register_user` (app.py 121-145), with the mutable global `users_db`
passed and returned explicitly.  On a duplicate it raises 400
"User already exists" before any mutation, so the state comes back
unchanged; otherwise it appends the new record (id = len(users_db)+1) and
returns the response without the hashed password. -/
def register_user (user : UserCreate) (db : List User) (now salt : Nat) :
    Except String UserResponse × List User :=
  if db.any (collides user) then
    (.error "User already exists", db)
  else
    let new_user : User :=
      { id := db.length + 1, email := user.email, username := user.username,
        full_name := user.full_name,
        hashed_password := hash_password user.password salt,
        created_at := now, is_active := true }
    (.ok (toUserResponse new_user), db ++ [new_user])

/-- A JWT payload: the optional "sub" claim and the "exp" claim
(app.py 91, 98). -/
structure JwtPayload where
  sub : Option String
  exp : Nat
deriving DecidableEq, Repr

/-- Model of an encoded JWT: the payload together with the signing key.
Decoding with a different key fails the signature check. -/
structure Jwt where
  payload : JwtPayload
  key : String
deriving DecidableEq, Repr

/-- The token error taxonomy of PyJWT as used here: signature or structure
failures, and expiry. -/
inductive TokenError where
  | invalid
  | expired
deriving DecidableEq, Repr

/-- Model of `jwt.decode(token, key, algorithms=[ALGORITHM])`: the signature
is checked first, then the `exp` claim; PyJWT (zero leeway) raises
ExpiredSignatureError exactly when `exp < now`. -/
def jwt_decode (tok : Jwt) (key : String) (now : Nat) : Except TokenError JwtPayload :=
  if tok.key ≠ key then .error .invalid
  else if tok.payload.exp < now then .error .expired
  else .ok tok.payload

/-- `create_access_token` (app.py 85-93).  `data` only ever holds the "sub"
entry, modelled as `sub`.  Python's `if expires_delta:` is falsy both for
`None` and for `timedelta(0)`, so those two cases take the 15-minute
default. -/
def create_access_token (sub : Option String) (expires_delta : Option Nat)
    (now : Nat) (key : String) : Jwt :=
  let expire : Nat :=
    match expires_delta with
    | some d => if d = 0 then now + 15 else now + d
    | none => now + 15
  { payload := { sub := sub, exp := expire }, key := key }

/-- `verify_token` (app.py 95-109): any PyJWT failure, and a missing "sub"
claim, collapse to the single 401 detail "Could not validate credentials";
otherwise the subject username is returned. -/
def verify_token (tok : Jwt) (key : String) (now : Nat) : Except String String :=
  match jwt_decode tok key now with
  | .error _ => .error "Could not validate credentials"
  | .ok payload =>
    match payload.sub with
    | some username => .ok username
    | none => .error "Could not validate credentials"

/-- The `Token` response model (app.py 61-63). -/
structure Token where
  access_token : Jwt
  token_type : String
deriving DecidableEq, Repr

/-- `login` (app.py 147-168): linear scan for the username; a missing user
and a failed password check raise the same 401 "Incorrect username or
password"; on success a token for the stored username with a 30-minute
expiry is issued. -/
def login (user_credentials : UserLogin) (db : List User) (now : Nat)
    (key : String) : Except String Token :=
  match db.find? (fun u => u.username == user_credentials.username) with
  | none => .error "Incorrect username or password"
  | some user =>
    if verify_password user_credentials.password user.hashed_password then
      .ok { access_token := create_access_token (some user.username) (some 30) now key,
            token_type := "bearer" }
    else .error "Incorrect username or password"

/-- Body of `get_current_user` (app.py 170-184) after the token gate:
lookup by username, 404 if absent, projection otherwise. -/
def get_current_user (current_username : String) (db : List User) :
    Except String UserResponse :=
  match db.find? (fun u => u.username == current_username) with
  | none => .error "User not found"
  | some user => .ok (toUserResponse user)

/-- Body of `list_users` (app.py 186-191) after the token gate. -/
def list_users (db : List User) : List UserResponse :=
  db.map toUserResponse

/-- The `/users/me` endpoint including its `Depends(verify_token)` gate. -/
def get_current_user_endpoint (tok : Jwt) (key : String) (now : Nat)
    (db : List User) : Except String UserResponse :=
  match verify_token tok key now with
  | .error e => .error e
  | .ok username => get_current_user username db

/-- The `/users` endpoint including its `Depends(verify_token)` gate. -/
def list_users_endpoint (tok : Jwt) (key : String) (now : Nat)
    (db : List User) : Except String (List UserResponse) :=
  match verify_token tok key now with
  | .error e => .error e
  | .ok _ => .ok (list_users db)

/-- Registry states reachable from the seeded initial database by any
sequence of successful `register_user` calls (the only mutating
operation). -/
inductive Reachable : List User → Prop where
  | init : ∀ salt t0, Reachable (users_db_init salt t0)
  | step : ∀ cand db now salt resp db2, Reachable db →
      register_user cand db now salt = (.ok resp, db2) → Reachable db2

/-- Replaces every stored credential verifier according to `f`, leaving all
non-secret fields alone; used to state that the public outputs are
independent of the verifiers. -/
def rehash (f : User → BcryptHash) (u : User) : User :=
  { u with hashed_password := f u }

/-- C2: whenever some stored principal already has the candidate's email or
handle, `register_user` returns the duplicate error and the registry comes
back exactly as it was (same size, contents, and order). -/
theorem failed_insert_atomic (cand : UserCreate) (db : List User) (now salt : Nat)
    (h : ∃ e ∈ db, e.email = cand.email ∨ e.username = cand.username) :
    register_user cand db now salt = (.error "User already exists", db) := by
  obtain ⟨e, he, hor⟩ := h
  have hc : db.any (collides cand) = true := by
    refine List.any_eq_true.mpr ⟨e, he, ?_⟩
    simp only [collides, Bool.or_eq_true, beq_iff_eq]
    tauto
  simp [register_user, hc]

/-- Witness for C2: registering a candidate reusing the admin email fails
with the duplicate error and leaves the seeded registry untouched. -/
theorem failed_insert_atomic_witness :
    register_user ⟨"admin@example.com", "bob", "pw", "Bob"⟩ (users_db_init 0 0) 3 4
      = (.error "User already exists", users_db_init 0 0) :=
  failed_insert_atomic _ _ 3 4
    ⟨adminUser 0 0, by simp [users_db_init], Or.inl rfl⟩

/-- C3 counterexample: on the startup registry (no registrations yet, but the
admin is pre-seeded), registering Alice succeeds with id 2, not id 1 as the
claim states. -/
theorem register_alice_id_not_one :
    ((register_user ⟨"a@x.com", "alice", "pw123", "Alice"⟩
        (users_db_init 0 0) 5 7).1.toOption.map UserResponse.id) ≠ some 1 := by
  decide

/-- C3 amended: on the startup registry, registering Alice succeeds and the
returned projection is exactly the record with id 2 and the non-secret
fields — the `UserResponse` type carries no verifier field. -/
theorem register_alice_succeeds_id_two (salt t0 now salt2 : Nat) :
    (register_user ⟨"a@x.com", "alice", "pw123", "Alice"⟩
        (users_db_init salt t0) now salt2).1
      = .ok { id := 2, email := "a@x.com", username := "alice",
              full_name := "Alice", created_at := now, is_active := true } := rfl

/-- C4: a login whose handle is absent from the registry and a login whose
handle is present but whose secret fails verification produce the identical
single unauthorized outcome: the same 401 error with the same message. -/
theorem login_enumeration_resistant (creds : UserLogin) (db : List User)
    (now : Nat) (key : String)
    (h : db.find? (fun u => u.username == creds.username) = none
      ∨ ∃ u, db.find? (fun u => u.username == creds.username) = some u
          ∧ verify_password creds.password u.hashed_password = false) :
    login creds db now key = .error "Incorrect username or password" := by
  rcases h with h | ⟨u, hf, hv⟩
  · simp [login, h]
  · simp [login, hf, hv]

/-- Witness for C4: logging in with an unknown handle on the seeded registry
yields the unauthorized outcome. -/
theorem login_enumeration_resistant_witness :
    login ⟨"nobody", "pw"⟩ (users_db_init 0 0) 9 "k"
      = .error "Incorrect username or password" :=
  login_enumeration_resistant _ _ 9 "k" (Or.inl rfl)

/-- C6: for every issued token, decoding strictly after its `exp` timestamp
fails with the expired error, and `verify_token` surfaces it as the 401
"Could not validate credentials". -/
theorem token_expiry (sub : Option String) (delta : Option Nat) (now t : Nat)
    (key : String)
    (h : (create_access_token sub delta now key).payload.exp < t) :
    jwt_decode (create_access_token sub delta now key) key t = .error .expired
    ∧ verify_token (create_access_token sub delta now key) key t
        = .error "Could not validate credentials" := by
  have h' := h
  simp only [create_access_token] at h'
  constructor
  · simp [jwt_decode, create_access_token, h']
  · simp [verify_token, jwt_decode, create_access_token, h']

/-- Witness for C6: a token issued at time 0 with a 1-minute ttl fails
verification at time 2. -/
theorem token_expiry_witness :
    jwt_decode (create_access_token (some "alice") (some 1) 0 "k") "k" 2
        = .error .expired
    ∧ verify_token (create_access_token (some "alice") (some 1) 0 "k") "k" 2
        = .error "Could not validate credentials" :=
  token_expiry (some "alice") (some 1) 0 2 "k" (by decide)

/-- C8: verifying a secret against its own hash succeeds, and verifying a
different secret against that hash fails (bcrypt modelled as exact-match
verification under the stored salt). -/
theorem hash_verify_agreement :
    (∀ s salt, verify_password s (hash_password s salt) = true)
    ∧ (∀ s1 s2 salt, s1 ≠ s2 → verify_password s2 (hash_password s1 salt) = false) := by
  constructor
  · intro s salt
    simp [verify_password, hash_password, bcrypt_checkpw, bcrypt_hashpw]
  · intro s1 s2 salt hne
    simp [verify_password, hash_password, bcrypt_checkpw, bcrypt_hashpw]
    exact fun h => hne h.symm

/-- Witness for C8: the right secret verifies against its hash, a wrong one
does not. -/
theorem hash_verify_agreement_witness :
    verify_password "pw123" (hash_password "pw123" 0) = true
    ∧ verify_password "other" (hash_password "pw123" 0) = false :=
  ⟨hash_verify_agreement.1 "pw123" 0,
   hash_verify_agreement.2 "pw123" "other" 0 (by decide)⟩

/-- C9: every token issued by a successful login expires 30 minutes after
issuance, while `create_access_token` called without an explicit ttl sets
expiry 15 minutes after issuance. -/
theorem default_ttl_policy :
    (∀ creds db now key tok, login creds db now key = .ok tok →
        tok.access_token.payload.exp = now + 30)
    ∧ (∀ sub now key,
        (create_access_token sub none now key).payload.exp = now + 15) := by
  constructor
  · intro creds db now key tok h
    unfold login at h
    rcases hf : db.find? (fun u => u.username == creds.username) with _ | u
    · rw [hf] at h; exact absurd h (by simp)
    · rw [hf] at h
      dsimp only at h
      by_cases hv : verify_password creds.password u.hashed_password = true
      · rw [if_pos hv] at h
        injection h with h2
        subst h2
        rfl
      · rw [if_neg hv] at h
        exact absurd h (by simp)
  · intro sub now key
    rfl

/-- Witness for C9: a concrete successful login at time 7 issues a token
expiring at 37, and the no-ttl path at time 7 expires at 22. -/
theorem default_ttl_policy_witness :
    (Token.mk (Jwt.mk ⟨some "alice", 37⟩ "k") "bearer").access_token.payload.exp = 7 + 30
    ∧ (create_access_token (some "alice") none 7 "k").payload.exp = 7 + 15 :=
  ⟨default_ttl_policy.1 ⟨"alice", "pw"⟩
      [{ id := 1, email := "e", username := "alice", full_name := "A",
         hashed_password := hash_password "pw" 0, created_at := 0, is_active := true }]
      7 "k" (Token.mk (Jwt.mk ⟨some "alice", 37⟩ "k") "bearer") rfl,
   default_ttl_policy.2 (some "alice") 7 "k"⟩

/-- Shape of a successful insert: the duplicate check came back false, the
new state is the old one with the fresh record appended, and the response
projection carries id = old size + 1. -/
theorem register_user_ok_spec (cand : UserCreate) (db : List User)
    (now salt : Nat) (resp : UserResponse) (db2 : List User)
    (h : register_user cand db now salt = (.ok resp, db2)) :
    db.any (collides cand) = false
    ∧ db2.map User.email = db.map User.email ++ [cand.email]
    ∧ db2.map User.username = db.map User.username ++ [cand.username]
    ∧ resp.id = db.length + 1
    ∧ ∀ u ∈ db, u ∈ db2 := by
  by_cases hc : db.any (collides cand) = true
  · simp [register_user, hc] at h
  · have hc' : db.any (collides cand) = false := by
      revert hc; cases db.any (collides cand) <;> simp
    simp [register_user, hc'] at h
    obtain ⟨hresp, hdb2⟩ := h
    subst hdb2
    refine ⟨hc', by simp, by simp, ?_, by intro u hu; simp [hu]⟩
    rw [← hresp]
    simp [toUserResponse]

/-- C1: in every registry state reachable by register operations from the
seeded initial database, no two stored principals share an email and no two
share a handle. -/
theorem registry_uniqueness (db : List User) (h : Reachable db) :
    (db.map User.email).Pairwise (fun a b => a ≠ b)
    ∧ (db.map User.username).Pairwise (fun a b => a ≠ b) := by
  induction h with
  | init salt t0 => simp [users_db_init]
  | step cand db now salt resp db2 hre hstep ih =>
    obtain ⟨hany, hem, hun, _, _⟩ := register_user_ok_spec cand db now salt resp db2 hstep
    have hnc : ∀ e ∈ db, e.email ≠ cand.email ∧ e.username ≠ cand.username := by
      intro e he
      have hne := List.any_eq_false.mp hany e he
      simp only [collides, Bool.or_eq_true, beq_iff_eq, not_or] at hne
      exact hne
    constructor
    · rw [hem]
      refine List.pairwise_append.mpr ⟨ih.1, by simp, ?_⟩
      intro a ha b hb
      simp only [List.mem_singleton] at hb
      subst hb
      simp only [List.mem_map] at ha
      obtain ⟨e, he, rfl⟩ := ha
      exact (hnc e he).1
    · rw [hun]
      refine List.pairwise_append.mpr ⟨ih.2, by simp, ?_⟩
      intro a ha b hb
      simp only [List.mem_singleton] at hb
      subst hb
      simp only [List.mem_map] at ha
      obtain ⟨e, he, rfl⟩ := ha
      exact (hnc e he).2

/-- Witness for C1: the seeded initial registry satisfies the uniqueness
invariant. -/
theorem registry_uniqueness_witness :
    ((users_db_init 0 0).map User.email).Pairwise (fun a b => a ≠ b)
    ∧ ((users_db_init 0 0).map User.username).Pairwise (fun a b => a ≠ b) :=
  registry_uniqueness _ (Reachable.init 0 0)

/-- C5: verifying a token issued for a subject with a positive ttl, before
that ttl has elapsed and under the same signing key, succeeds and yields
that subject. -/
theorem token_round_trip (subj key : String) (ttl now t : Nat)
    (hpos : 0 < ttl) (ht : t ≤ now + ttl) :
    verify_token (create_access_token (some subj) (some ttl) now key) key t
      = .ok subj := by
  have hne : ¬ ttl = 0 := by omega
  have hlt : ¬ now + ttl < t := by omega
  simp [verify_token, jwt_decode, create_access_token, hne, hlt]

/-- Witness for C5: a token for "alice" with a 1-minute ttl issued at time 0
verifies at time 0 and yields "alice". -/
theorem token_round_trip_witness :
    verify_token (create_access_token (some "alice") (some 1) 0 "k") "k" 0
      = .ok "alice" :=
  token_round_trip "alice" "k" 1 0 0 (by decide) (by decide)

/-- C10: the startup registry holds exactly the admin principal (id 1,
handle "admin", email "admin@example.com", active); that principal survives
into every reachable state; and a successful registration from the startup
state is assigned id 2. -/
theorem preseeded_admin :
    (∀ salt t0, users_db_init salt t0 = [adminUser salt t0]
      ∧ (adminUser salt t0).id = 1
      ∧ (adminUser salt t0).username = "admin"
      ∧ (adminUser salt t0).email = "admin@example.com"
      ∧ (adminUser salt t0).is_active = true)
    ∧ (∀ db, Reachable db → ∃ u, u ∈ db ∧ u.id = 1 ∧ u.username = "admin"
      ∧ u.email = "admin@example.com" ∧ u.is_active = true)
    ∧ (∀ salt t0 cand now salt2 resp db2,
      register_user cand (users_db_init salt t0) now salt2 = (.ok resp, db2) →
        resp.id = 2) := by
  refine ⟨fun salt t0 => ⟨rfl, rfl, rfl, rfl, rfl⟩, ?_, ?_⟩
  · intro db h
    induction h with
    | init salt t0 => exact ⟨adminUser salt t0, by simp [users_db_init], rfl, rfl, rfl, rfl⟩
    | step cand db now salt resp db2 hre hstep ih =>
      obtain ⟨u, hu, hrest⟩ := ih
      obtain ⟨_, _, _, _, hsub⟩ := register_user_ok_spec cand db now salt resp db2 hstep
      exact ⟨u, hsub u hu, hrest⟩
  · intro salt t0 cand now salt2 resp db2 h
    obtain ⟨_, _, _, hid, _⟩ :=
      register_user_ok_spec cand (users_db_init salt t0) now salt2 resp db2 h
    simpa [users_db_init] using hid

/-- Witness for C10: the admin is present in the concrete initial state, and
the concrete registration of Alice from it gets id 2. -/
theorem preseeded_admin_witness :
    (∃ u, u ∈ users_db_init 0 0 ∧ u.id = 1 ∧ u.username = "admin"
      ∧ u.email = "admin@example.com" ∧ u.is_active = true)
    ∧ ({ id := 2, email := "a@x.com", username := "alice", full_name := "Alice",
         created_at := 5, is_active := true } : UserResponse).id = 2 :=
  ⟨preseeded_admin.2.1 _ (Reachable.init 0 0),
   preseeded_admin.2.2 0 0 ⟨"a@x.com", "alice", "pw123", "Alice"⟩ 5 7 _ _ rfl⟩

/-- C7: the public outputs of register, of the token-gated /users/me
resolution, and of the token-gated /users listing are unchanged when every
stored credential verifier is replaced arbitrarily and the candidate's
plaintext secret and salt are replaced arbitrarily — so no returned
projection carries any verifier information, only the non-secret fields. -/
theorem verifier_secrecy (f : User → BcryptHash) (db : List User) :
    (∀ cand now salt pw2 salt2,
      (register_user { cand with password := pw2 } (db.map (rehash f)) now salt2).1
        = (register_user cand db now salt).1)
    ∧ (∀ tok key now,
      get_current_user_endpoint tok key now (db.map (rehash f))
        = get_current_user_endpoint tok key now db)
    ∧ (∀ tok key now,
      list_users_endpoint tok key now (db.map (rehash f))
        = list_users_endpoint tok key now db) := by
  have hcoll : ∀ cand : UserCreate, collides cand ∘ rehash f = collides cand :=
    fun cand => funext fun u => rfl
  have hfind : ∀ s : String,
      (db.map (rehash f)).find? (fun u => u.username == s)
        = ((db.find? (fun u => u.username == s)).map (rehash f)) := by
    intro s
    rw [List.find?_map]
    rfl
  refine ⟨?_, ?_, ?_⟩
  · intro cand now salt pw2 salt2
    have hpw : collides { cand with password := pw2 } = collides cand :=
      funext fun u => rfl
    have hany : (db.map (rehash f)).any (collides { cand with password := pw2 })
        = db.any (collides cand) := by
      rw [List.any_map, hpw, hcoll]
    by_cases hc : db.any (collides cand) = true
    · simp [register_user, hany, hc]
    · have hc' : db.any (collides cand) = false := by
        revert hc; cases db.any (collides cand) <;> simp
      simp [register_user, hany, hc', toUserResponse]
  · intro tok key now
    unfold get_current_user_endpoint
    cases verify_token tok key now with
    | error e => rfl
    | ok username =>
      show get_current_user username (db.map (rehash f)) = get_current_user username db
      unfold get_current_user
      rw [hfind username]
      cases db.find? (fun u => u.username == username) with
      | none => rfl
      | some u => rfl
  · intro tok key now
    unfold list_users_endpoint
    cases verify_token tok key now with
    | error e => rfl
    | ok username =>
      show Except.ok (list_users (db.map (rehash f))) = Except.ok (list_users db)
      have hcomp : toUserResponse ∘ rehash f = toUserResponse := funext fun u => rfl
      unfold list_users
      rw [List.map_map, hcomp]
